import Mathlib

/-!
Verification development for the cross-chain bridge relayer in src/script.py.
The relayer scans a source chain for TokensLocked events in bounded block
ranges, translates each event into a mintTokens call on a destination chain,
signs it, reports a simulated receipt hash, and persists the last scanned
block to a JSON state file.  External collaborators (the web3 node, json
library, keccak, signing) appear either as explicit oracle arguments or as
small modelled functions documented at their definition.
-/

/-- A decoded TokensLocked event log, as handed to the relayer by the node.
Fields mirror the event inputs of BRIDGE_CONTRACT_ABI in src/script.py
(token, sender, recipient, amount, destinationChainId) together with the log
metadata the code reads: transactionHash (used at lines 200 and 226),
blockNumber and logIndex.  Hashes and addresses are modelled as Nat. -/
structure SourceEvent where
  transactionHash : Nat
  blockNumber : Nat
  logIndex : Nat
  token : Nat
  sender : Nat
  recipient : Nat
  amount : Nat
  destinationChainId : Nat
  deriving DecidableEq, Repr

/-- Outcome of the node log query made by EventScanner.scan_for_events
(src/script.py lines 152-157): either the list of decoded entries returned by
get_all_entries, or a BlockNotFound error raised by the node, or any other
exception during the query. -/
inductive ScanOutcome
  | ok (entries : List SourceEvent)
  | blockNotFound
  | nodeError
  deriving DecidableEq, Repr

/-- Embedding of EventScanner.scan_for_events (src/script.py lines 139-166):
on success it returns the entries, converted one by one in order (the
per-entry dict conversion at line 160 preserves content and order, modelled
as map id); a BlockNotFound error is caught at line 161 and yields [], and
any other exception is caught at line 164 and also yields []. -/
def scan_for_events (outcome : ScanOutcome) : List SourceEvent :=
  match outcome with
  | ScanOutcome.ok entries => entries.map id
  | ScanOutcome.blockNotFound => []
  | ScanOutcome.nodeError => []

/-- The destination-chain call built by TransactionProcessor.process_event:
the mintTokens function of the destination bridge contract with its four
arguments (src/script.py lines 222-227). -/
structure MintCall where
  target : Nat
  functionName : String
  token : Nat
  recipient : Nat
  amount : Nat
  idempotencyKey : Nat
  deriving DecidableEq, Repr

/-- Embedding of the call construction at src/script.py lines 222-227:
contract.functions.mintTokens(token, recipient, amount, transactionHash),
where token, recipient, amount are read from the event args (lines 204-207)
and the source transaction hash is passed as the idempotency argument. -/
def mintTokensCall (destContract : Nat) (e : SourceEvent) : MintCall :=
  { target := destContract, functionName := "mintTokens", token := e.token,
    recipient := e.recipient, amount := e.amount,
    idempotencyKey := e.transactionHash }

/-- Where, if anywhere, an exception is raised inside the try block of
process_event (src/script.py lines 199-243): noErr means the body runs to
completion; beforeBuild models an exception before the mintTokens call is
built (bad event fields, nonce or gas price lookup failure); afterBuild
models an exception after building, during signing.  Every such exception is
caught by the except clause at line 244. -/
inductive ProcErr
  | noErr
  | beforeBuild
  | afterBuild
  deriving DecidableEq, Repr

/-- Observable result of one process_event call (src/script.py lines
189-246): the mintTokens calls built, whether a real network submission
happened (send_raw_transaction at line 237 is commented out, so never),
the simulated receipt hash logged at lines 240-241, and the returned bool. -/
structure ProcResult where
  builtCalls : List MintCall
  sent : Bool
  simulatedHash : Option Nat
  success : Bool
  deriving DecidableEq, Repr

/-- Embedding of TransactionProcessor.process_event (src/script.py lines
189-246).  sign models web3 sign_transaction returning the raw signed bytes
(line 230); keccak models Web3.keccak (line 240); both are external pure
functions passed as oracles.  On a run with no exception the body builds
exactly one mintTokens call, signs it, performs no network send, and reports
keccak of the signed raw transaction as the simulated hash, returning True.
On any exception the except clause at line 244 logs and returns False. -/
def process_event (sign : MintCall → List Nat) (keccak : List Nat → Nat)
    (destContract : Nat) (err : ProcErr) (e : SourceEvent) : ProcResult :=
  match err with
  | ProcErr.beforeBuild =>
      { builtCalls := [], sent := false, simulatedHash := none,
        success := false }
  | ProcErr.afterBuild =>
      { builtCalls := [mintTokensCall destContract e], sent := false,
        simulatedHash := none, success := false }
  | ProcErr.noErr =>
      let call := mintTokensCall destContract e
      let signed := sign call
      { builtCalls := [call], sent := false,
        simulatedHash := some (keccak signed), success := true }

/-- Embedding of the event-processing loop in BridgeRelayerService.run
(src/script.py lines 344-346): for each found event, in list order, call
tx_processor.process_event; the returned bool is ignored and the loop never
aborts because process_event catches every exception internally.  errOf
gives each event its exception oracle. -/
def process_batch (sign : MintCall → List Nat) (keccak : List Nat → Nat)
    (destContract : Nat) (errOf : SourceEvent → ProcErr)
    (events : List SourceEvent) : List ProcResult :=
  events.map (fun e => process_event sign keccak destContract (errOf e) e)

/-- Observable effects of one iteration of the while loop in
BridgeRelayerService.run (src/script.py lines 323-351): the cursor value
after the iteration, the range passed to scan_for_events (none when the
iteration hit the continue at line 334), the events handed to the processor
loop in order, whether save_state ran (line 350), and whether the iteration
slept (line 333 or line 351). -/
structure CycleResult where
  newLastScanned : Nat
  scannedRange : Option (Nat × Nat)
  processed : List SourceEvent
  savedState : Bool
  slept : Bool
  deriving DecidableEq, Repr

/-- Embedding of one iteration of the while loop in BridgeRelayerService.run
(src/script.py lines 323-351).  latest_block is the head reported by the
node at line 325; outcome is the oracle for the log query this iteration.
from_block = lastScanned + 1 (line 326); to_block = min(latest_block,
from_block + maxBlocksPerScan - 1) (line 329).  If from_block > to_block the
iteration sleeps and continues without scanning or saving (lines 331-334);
otherwise it scans, hands every returned event to the processor in order
(lines 337-346), sets last_scanned_block = to_block, saves state, and sleeps
(lines 349-351). -/
def run_cycle (maxBlocksPerScan latest_block : Nat) (outcome : ScanOutcome)
    (lastScanned : Nat) : CycleResult :=
  let from_block := lastScanned + 1
  let to_block := min latest_block (from_block + maxBlocksPerScan - 1)
  if from_block > to_block then
    { newLastScanned := lastScanned, scannedRange := none, processed := [],
      savedState := false, slept := true }
  else
    let events := scan_for_events outcome
    { newLastScanned := to_block,
      scannedRange := some (from_block, to_block), processed := events,
      savedState := true, slept := true }

/-- Strict ordering on events by the pair (blockNumber, logIndex). -/
def eventKeyLtb (a b : SourceEvent) : Bool :=
  Nat.blt a.blockNumber b.blockNumber ||
    (a.blockNumber == b.blockNumber && Nat.blt a.logIndex b.logIndex)

/-- A list of events is in strictly ascending (blockNumber, logIndex) order
when every adjacent pair is strictly increasing. -/
def ascendingByKey : List SourceEvent → Bool
  | [] => true
  | [_] => true
  | a :: b :: rest => eventKeyLtb a b && ascendingByKey (b :: rest)

/-- The dictionary-shaped state the relayer reads from the state file; the
code only ever reads state.get with key last_scanned_block (src/script.py
line 264), absent or null becoming None. -/
structure StateDict where
  last_scanned_block : Option Nat
  deriving DecidableEq, Repr

/-- The state file on disk: either missing, or present with raw text
content. -/
inductive StateFile
  | missing
  | present (content : String)
  deriving DecidableEq, Repr

/-- The opening brace character. -/
def lbrace : Char := Char.ofNat 123

/-- The closing brace character. -/
def rbrace : Char := Char.ofNat 125

/-- The double quote character. -/
def dquote : Char := Char.ofNat 34

/-- Reads a nonempty all-digit character list as a decimal Nat. -/
def readNat (cs : List Char) : Option Nat :=
  if cs.isEmpty || !(cs.all Char.isDigit) then none
  else some (cs.foldl (fun acc c => acc * 10 + (c.toNat - 48)) 0)

/-- The characters of the serialized state key, as json.dump writes it in
save_state (src/script.py lines 305-307): the quoted identifier
last_scanned_block followed by a colon and a space. -/
def stateKeyChars : List Char :=
  [dquote] ++ "last_scanned_block".toList ++ [dquote, ':', ' ']

/-- Modelled from the Python standard library json.load as applied to the
relayer state file (src/script.py line 300).  The model accepts exactly the
layouts the service itself writes via json.dump in save_state: an empty
object, or an object holding one integer field last_scanned_block; every
other content is treated as unparseable and yields an error, modelling the
JSONDecodeError that json.load raises on invalid input.  Only the raising
behavior on genuinely invalid JSON is relied on below. -/
def jsonLoad (s : String) : Except String StateDict :=
  match s.toList with
  | [] => Except.error "JSONDecodeError"
  | c :: rest =>
    if c = lbrace then
      if rest = [rbrace] then Except.ok { last_scanned_block := none }
      else if rest.take stateKeyChars.length = stateKeyChars ∧
          rest.getLast? = some rbrace then
        match readNat ((rest.drop stateKeyChars.length).dropLast) with
        | some n => Except.ok { last_scanned_block := some n }
        | none => Except.error "JSONDecodeError"
      else Except.error "JSONDecodeError"
    else Except.error "JSONDecodeError"

/-- Embedding of BridgeRelayerService.load_state (src/script.py lines
295-301): when the state file does not exist, return the empty dictionary;
when it exists, return json.load of its content — any parse failure of
json.load propagates out of load_state, since the call is not wrapped in any
exception handler. -/
def load_state (file : StateFile) : Except String StateDict :=
  match file with
  | StateFile.missing => Except.ok { last_scanned_block := none }
  | StateFile.present content => jsonLoad content

/-- Whether a load result is a raised exception rather than a returned
dictionary. -/
def raisesError (r : Except String StateDict) : Bool :=
  match r with
  | Except.error _ => true
  | Except.ok _ => false

/-- The initial_scan_block configuration value (src/script.py line 36):
either the string latest, or an explicit block number. -/
inductive InitialScanBlock
  | latest
  | explicitBlock (n : Nat)
  deriving DecidableEq, Repr

/-- Python truthiness of the loaded cursor value, as tested by the statement
at src/script.py line 314: None and 0 are falsy, every other number is
truthy. -/
def pythonFalsy (cursor : Option Nat) : Bool :=
  match cursor with
  | none => true
  | some n => n == 0

/-- Embedding of the startup cursor resolution (src/script.py lines 263-264
and 314-320): last_scanned_block is read from the loaded state; if it is
falsy the starting block is re-resolved from the initial_scan_block
configuration (the chain head for latest, otherwise the explicit number);
otherwise the loaded value is kept. -/
def resolve_start (cursor : Option Nat) (initial : InitialScanBlock)
    (head : Nat) : Nat :=
  if pythonFalsy cursor then
    match initial with
    | InitialScanBlock.latest => head
    | InitialScanBlock.explicitBlock n => n
  else cursor.getD 0

/-- Concrete event used in witnesses: block 550, log index 0. -/
def evA : SourceEvent :=
  { transactionHash := 10, blockNumber := 550, logIndex := 0, token := 1,
    sender := 2, recipient := 3, amount := 4, destinationChainId := 5 }

/-- Concrete event used in witnesses: block 550, log index 1. -/
def evB : SourceEvent :=
  { transactionHash := 11, blockNumber := 550, logIndex := 1, token := 1,
    sender := 2, recipient := 3, amount := 4, destinationChainId := 5 }

/-- Concrete event used in witnesses: block 551, log index 0. -/
def evFail : SourceEvent :=
  { transactionHash := 12, blockNumber := 551, logIndex := 0, token := 1,
    sender := 2, recipient := 3, amount := 4, destinationChainId := 5 }

/-- Claim C1 (code bug): evaluating one relay cycle at cursor 600, head 700,
with the log query failing with a transient RPC error, shows the loop still
persists lastScannedBlock = 700 while scan_for_events returned no entries
and no event was handed to the processor: blocks 601-700 end up below the
durable cursor without ever having been scanned, so the coverage invariant
that every block at most lastScannedBlock has been fully scanned and its
events handed off is violated by the code. -/
theorem relay_C1_coverage_bug :
    (run_cycle 100 700 ScanOutcome.nodeError 600).newLastScanned = 700 ∧
    (run_cycle 100 700 ScanOutcome.nodeError 600).savedState = true ∧
    (run_cycle 100 700 ScanOutcome.nodeError 600).processed = [] ∧
    scan_for_events ScanOutcome.nodeError = [] := by
  decide

/-- Claim C2 (code bug): when the node rejects the range [601, 700] with
BlockNotFound, scan_for_events returns [] and the cycle nevertheless
advances and persists the cursor to 700; the following cycle, with the head
still at 700, finds nothing left to scan, so the range [601, 700] is never
retried — contradicting the claim that the cursor is not advanced past a
rejected range and that the next cycle retries it. -/
theorem relay_C2_no_retry_bug :
    (run_cycle 100 700 ScanOutcome.blockNotFound 600).newLastScanned = 700 ∧
    (run_cycle 100 700 ScanOutcome.blockNotFound 600).savedState = true ∧
    (run_cycle 100 700 ScanOutcome.blockNotFound 600).processed = [] ∧
    (run_cycle 100 700 (ScanOutcome.ok [])
      (run_cycle 100 700 ScanOutcome.blockNotFound 600).newLastScanned
      ).scannedRange = none := by
  decide

/-- Claim C3: every cycle computes from = lastScanned + 1 and to =
min(head, from + maxBlocksPerScan - 1), so whenever a scan happens its range
is exactly (from, to) and covers at most maxBlocksPerScan blocks; and
whenever from > to the cycle scans nothing, processes nothing, writes no
cursor, and sleeps instead. -/
theorem relay_C3_chunking (m latest c : Nat) (outcome : ScanOutcome)
    (hm : 1 ≤ m) :
    (c + 1 ≤ min latest (c + 1 + m - 1) →
      (run_cycle m latest outcome c).scannedRange =
        some (c + 1, min latest (c + 1 + m - 1)) ∧
      min latest (c + 1 + m - 1) - (c + 1) + 1 ≤ m) ∧
    (min latest (c + 1 + m - 1) < c + 1 →
      (run_cycle m latest outcome c).scannedRange = none ∧
      (run_cycle m latest outcome c).processed = [] ∧
      (run_cycle m latest outcome c).savedState = false ∧
      (run_cycle m latest outcome c).newLastScanned = c ∧
      (run_cycle m latest outcome c).slept = true) := by
  constructor
  · intro h
    have hnot : ¬ (c + 1 > min latest (c + 1 + m - 1)) := not_lt.mpr h
    refine ⟨?_, by omega⟩
    simp only [run_cycle, if_neg hnot]
  · intro h
    refine ⟨?_, ?_, ?_, ?_, ?_⟩ <;> simp only [run_cycle, if_pos h]

/-- Claim C3 witness: at cursor 500, head 650, chunk size 100, the cycle
scans exactly the range (501, 600), which covers at most 100 blocks. -/
theorem relay_C3_chunking_witness :
    (run_cycle 100 650 (ScanOutcome.ok []) 500).scannedRange =
      some (501, 600) ∧ 600 - 501 + 1 ≤ 100 := by
  have h := (relay_C3_chunking 100 650 500 (ScanOutcome.ok [])
    (by decide)).1 (by decide)
  exact ⟨h.1, by omega⟩

/-- Claim C4: for every decoded SourceEvent, a run of process_event that
reaches the call construction builds exactly one destination mintTokens call
whose token, recipient and amount arguments equal the event fields of the
same name, and whose idempotency argument equals the event source
transaction hash. -/
theorem relay_C4_translation (sign : MintCall → List Nat)
    (keccak : List Nat → Nat) (destContract : Nat) (e : SourceEvent) :
    (process_event sign keccak destContract ProcErr.noErr e).builtCalls =
      [mintTokensCall destContract e] ∧
    (mintTokensCall destContract e).functionName = "mintTokens" ∧
    (mintTokensCall destContract e).target = destContract ∧
    (mintTokensCall destContract e).token = e.token ∧
    (mintTokensCall destContract e).recipient = e.recipient ∧
    (mintTokensCall destContract e).amount = e.amount ∧
    (mintTokensCall destContract e).idempotencyKey = e.transactionHash :=
  ⟨rfl, rfl, rfl, rfl, rfl, rfl, rfl⟩

/-- Claim C5: when the node returns its log entries in strictly ascending
(blockNumber, logIndex) order, scan_for_events yields exactly that list in
that order, the returned list is strictly ascending, and the relay loop
hands the processor exactly the scanned list, in the same order. -/
theorem relay_C5_ordering (m latest c : Nat) (logs : List SourceEvent)
    (hsorted : ascendingByKey logs = true)
    (hrange : c + 1 ≤ min latest (c + 1 + m - 1)) :
    scan_for_events (ScanOutcome.ok logs) = logs ∧
    ascendingByKey (scan_for_events (ScanOutcome.ok logs)) = true ∧
    (run_cycle m latest (ScanOutcome.ok logs) c).processed =
      scan_for_events (ScanOutcome.ok logs) := by
  have hscan : scan_for_events (ScanOutcome.ok logs) = logs :=
    List.map_id logs
  refine ⟨hscan, by rw [hscan]; exact hsorted, ?_⟩
  have hnot : ¬ (c + 1 > min latest (c + 1 + m - 1)) := not_lt.mpr hrange
  simp only [run_cycle, if_neg hnot]

/-- Claim C5 witness: two events in block 550 with log indexes 0 and 1 are
in ascending order, the scan returns them unchanged, and the cycle at cursor
500 with head 650 hands exactly that list to the processor. -/
theorem relay_C5_ordering_witness :
    scan_for_events (ScanOutcome.ok [evA, evB]) = [evA, evB] ∧
    ascendingByKey (scan_for_events (ScanOutcome.ok [evA, evB])) = true ∧
    (run_cycle 100 650 (ScanOutcome.ok [evA, evB]) 500).processed =
      scan_for_events (ScanOutcome.ok [evA, evB]) :=
  relay_C5_ordering 100 650 500 [evA, evB] (by decide) (by decide)

/-- Claim C6: within one batch each event yields exactly one process_event
attempt, in list order, and a failed attempt on the first event neither
stops the attempts for the remaining events nor aborts the batch: the
result list always has one entry per event. -/
theorem relay_C6_isolation (sign : MintCall → List Nat)
    (keccak : List Nat → Nat) (destContract : Nat)
    (errOf : SourceEvent → ProcErr) (e : SourceEvent)
    (rest : List SourceEvent)
    (hfail : (process_event sign keccak destContract (errOf e) e).success =
      false) :
    process_batch sign keccak destContract errOf (e :: rest) =
      process_event sign keccak destContract (errOf e) e ::
        process_batch sign keccak destContract errOf rest ∧
    (process_batch sign keccak destContract errOf (e :: rest)).length =
      rest.length + 1 ∧
    (process_batch sign keccak destContract errOf rest).length =
      rest.length := by
  refine ⟨rfl, ?_, ?_⟩ <;> simp [process_batch]

/-- Claim C6 witness: with an oracle that fails every event before the call
is built, the first event of a two-event batch fails, yet the batch still
contains one result per event and the second event is attempted. -/
theorem relay_C6_isolation_witness :
    (process_event (fun _ => ([] : List Nat)) (fun _ => 0) 2
      ((fun _ => ProcErr.beforeBuild) evFail) evFail).success = false ∧
    (process_batch (fun _ => ([] : List Nat)) (fun _ => 0) 2
        (fun _ => ProcErr.beforeBuild) [evFail, evA] =
      process_event (fun _ => ([] : List Nat)) (fun _ => 0) 2
          ((fun _ => ProcErr.beforeBuild) evFail) evFail ::
        process_batch (fun _ => ([] : List Nat)) (fun _ => 0) 2
          (fun _ => ProcErr.beforeBuild) [evA] ∧
    (process_batch (fun _ => ([] : List Nat)) (fun _ => 0) 2
        (fun _ => ProcErr.beforeBuild) [evFail, evA]).length = 2 ∧
    (process_batch (fun _ => ([] : List Nat)) (fun _ => 0) 2
        (fun _ => ProcErr.beforeBuild) [evA]).length = 1) :=
  ⟨rfl, relay_C6_isolation (fun _ => ([] : List Nat)) (fun _ => 0) 2
    (fun _ => ProcErr.beforeBuild) evFail [evA] rfl⟩

/-- Claim C7: process_event never performs a network submission whatever the
run outcome; on an exception-free run it builds and signs the mintTokens
call and reports keccak of the signed payload as the simulated receipt; and
two events whose signed payloads coincide receive the same receipt hash, so
the receipt is a deterministic content hash of the signed payload. -/
theorem relay_C7_dry_run (sign : MintCall → List Nat)
    (keccak : List Nat → Nat) (destContract : Nat) (err : ProcErr)
    (e eOther : SourceEvent)
    (hsig : sign (mintTokensCall destContract e) =
      sign (mintTokensCall destContract eOther)) :
    (process_event sign keccak destContract err e).sent = false ∧
    (process_event sign keccak destContract ProcErr.noErr e).builtCalls =
      [mintTokensCall destContract e] ∧
    (process_event sign keccak destContract ProcErr.noErr e).simulatedHash =
      some (keccak (sign (mintTokensCall destContract e))) ∧
    (process_event sign keccak destContract ProcErr.noErr e).simulatedHash =
      (process_event sign keccak destContract ProcErr.noErr eOther
        ).simulatedHash := by
  refine ⟨?_, rfl, rfl, ?_⟩
  · cases err <;> rfl
  · show some (keccak (sign (mintTokensCall destContract e))) =
      some (keccak (sign (mintTokensCall destContract eOther)))
    rw [hsig]

/-- Claim C7 witness: with concrete sign and keccak oracles, a signing
failure still submits nothing to the network, and the exception-free run on
the concrete event reports exactly keccak of its signed payload; the same
signed payload yields the same receipt. -/
theorem relay_C7_dry_run_witness :
    (process_event (fun _ => ([0] : List Nat)) List.length 2
      ProcErr.afterBuild evA).sent = false ∧
    (process_event (fun _ => ([0] : List Nat)) List.length 2
      ProcErr.noErr evA).builtCalls = [mintTokensCall 2 evA] ∧
    (process_event (fun _ => ([0] : List Nat)) List.length 2
      ProcErr.noErr evA).simulatedHash =
      some (List.length ((fun _ => ([0] : List Nat))
        (mintTokensCall 2 evA))) ∧
    (process_event (fun _ => ([0] : List Nat)) List.length 2
      ProcErr.noErr evA).simulatedHash =
      (process_event (fun _ => ([0] : List Nat)) List.length 2
        ProcErr.noErr evB).simulatedHash :=
  relay_C7_dry_run (fun _ => ([0] : List Nat)) List.length 2
    ProcErr.afterBuild evA evB rfl

/-- Claim C8 counterexample: at cursor 500 with head 650 and chunk size 100
the cycle scans (501, 600), persists cursor 600, and although 600 < 650
leaves backlog, the cycle still sleeps the polling interval — refuting the
claim that the loop immediately begins the next range without sleeping when
it is not yet caught up. -/
theorem relay_C8_backlog_sleep_cex :
    (run_cycle 100 650 (ScanOutcome.ok []) 500).scannedRange =
      some (501, 600) ∧
    (run_cycle 100 650 (ScanOutcome.ok []) 500).newLastScanned = 600 ∧
    (run_cycle 100 650 (ScanOutcome.ok []) 500).savedState = true ∧
    600 < 650 ∧
    (run_cycle 100 650 (ScanOutcome.ok []) 500).slept = true := by
  decide

/-- Claim C8 amended: every iteration of the relay loop ends by sleeping the
polling interval, whether backlog remains or not; the cursor still advances
to the end of the scanned range when a scan happened and is unchanged
otherwise, so remaining backlog is picked up on the next cycle only after
the sleep. -/
theorem relay_C8_always_sleeps (m latest c : Nat) (outcome : ScanOutcome) :
    (run_cycle m latest outcome c).slept = true ∧
    (run_cycle m latest outcome c).newLastScanned =
      (if c + 1 > min latest (c + 1 + m - 1) then c
        else min latest (c + 1 + m - 1)) := by
  constructor <;> · simp only [run_cycle]; split <;> simp

/-- Claim C9 counterexample: loading a present but unparseable state file
raises the json decode error instead of returning an absent cursor —
refuting the claim that load never throws on a corrupt store. -/
theorem relay_C9_corrupt_throws_cex :
    raisesError (load_state (StateFile.present "not json")) = true := by
  decide

/-- Claim C9 amended: loading a missing state file returns the empty state
(an absent cursor) and does not throw, and the caller then resolves the
starting point; but loading a present file whose content json.load cannot
parse propagates the parse error out of load_state instead of returning an
absent cursor. -/
theorem relay_C9_load_behavior (s e : String)
    (hbad : jsonLoad s = Except.error e) :
    load_state StateFile.missing =
      Except.ok { last_scanned_block := none } ∧
    raisesError (load_state StateFile.missing) = false ∧
    load_state (StateFile.present s) = Except.error e :=
  ⟨rfl, rfl, hbad⟩

/-- Claim C9 amended witness: the missing file yields the empty state
without throwing, and the concrete corrupt content oops propagates a json
decode error. -/
theorem relay_C9_load_behavior_witness :
    load_state StateFile.missing =
      Except.ok { last_scanned_block := none } ∧
    raisesError (load_state StateFile.missing) = false ∧
    load_state (StateFile.present "oops") =
      Except.error "JSONDecodeError" :=
  relay_C9_load_behavior "oops" "JSONDecodeError" rfl

/-- Claim C10: a loaded cursor equal to 0 is falsy in the startup test and
is treated exactly like an absent cursor — the starting block is
re-resolved from the initial_scan_block configuration, the chain head for
latest or the explicit configured number — while any nonzero loaded cursor
is kept as is. -/
theorem relay_C10_falsy_cursor (initial : InitialScanBlock)
    (head n k : Nat) (hn : n ≠ 0) :
    resolve_start (some 0) initial head = resolve_start none initial head ∧
    resolve_start none InitialScanBlock.latest head = head ∧
    resolve_start none (InitialScanBlock.explicitBlock k) head = k ∧
    resolve_start (some n) initial head = n := by
  have hfalse : pythonFalsy (some n) = false := by
    simp [pythonFalsy, hn]
  refine ⟨rfl, rfl, rfl, ?_⟩
  simp [resolve_start, hfalse]

/-- Claim C10 witness: with configuration latest and head 1000, a persisted
cursor of 0 resolves to 1000 exactly as an absent cursor does, an explicit
configured block 123 is used when the cursor is absent, and a persisted
cursor of 7 is kept. -/
theorem relay_C10_falsy_cursor_witness :
    resolve_start (some 0) InitialScanBlock.latest 1000 =
      resolve_start none InitialScanBlock.latest 1000 ∧
    resolve_start none InitialScanBlock.latest 1000 = 1000 ∧
    resolve_start none (InitialScanBlock.explicitBlock 123) 1000 = 123 ∧
    resolve_start (some 7) InitialScanBlock.latest 1000 = 7 :=
  relay_C10_falsy_cursor InitialScanBlock.latest 1000 7 123 (by decide)
